import Mathlib

/-!
Verification of the restream replay/broadcast engine.

This file gives a shallow embedding of the engine's source
(src/src/bin/main.rs, src/src/adapter/webhook.rs, src/src/adapter/websocket.rs,
src/src/adapter/fireflies.rs, src/src/interface/mod.rs) and settles the
specification claims against it.

Modelling conventions:
- Rust i32 arithmetic is embedded as Lean Int with explicit wrapping into
  the 32-bit two's-complement range at every arithmetic operation, matching
  release-build semantics (debug builds would panic on the same overflows).
- Network sends and HTTP responses are nondeterministic inputs of the
  environment; they are passed in as oracles (a function from the index of
  the I/O operation to its outcome).
- The shared session registry (a HashMap behind a mutex) is embedded as an
  association list with atomic get/insert/remove operations; each embedded
  handler takes the registry state and returns the updated state.
-/

namespace Restream

/-- Rust struct TranscriptRecord (src/src/interface/mod.rs): a transcript
row with a textual time code, a speaker and a sentence. -/
structure TranscriptRecord where
  time : String
  speaker : String
  sentence : String
deriving DecidableEq, Repr

/-- Wrap an unbounded integer into the i32 two's-complement range
[-2^31, 2^31), the result of each Rust i32 arithmetic operation in a
release build. -/
def wrap32 (z : Int) : Int := (z + 2 ^ 31) % 2 ^ 32 - 2 ^ 31

/-- Embedding of Rust str::split(':') over the character list of the
string: splits at every colon, keeping empty segments, and yields one
(possibly empty) segment even for the empty string. -/
def splitOnColon : List Char → List (List Char)
  | [] => [[]]
  | c :: rest =>
      let r := splitOnColon rest
      if c = ':' then [] :: r
      else
        match r with
        | h :: t => (c :: h) :: t
        | [] => [[c]]

/-- Value of a nonempty all-digit character list, read in base 10;
none if the list is empty or contains a non-digit. Helper for the
embedding of str::parse. -/
def digitsVal (cs : List Char) : Option Nat :=
  if cs.isEmpty then none
  else if cs.all (fun c => c.isDigit) then
    some (cs.foldl (fun a c => a * 10 + (c.toNat - 48)) 0)
  else none

/-- Embedding of Rust str::parse::<i32>(): an optional single leading sign
followed by at least one digit, rejecting values outside the i32 range
(Rust's parse reports overflow as an error). -/
def parseI32 : List Char → Option Int
  | '+' :: rest =>
      (digitsVal rest).bind (fun n => if n ≤ 2 ^ 31 - 1 then some (n : Int) else none)
  | '-' :: rest =>
      (digitsVal rest).bind (fun n => if n ≤ 2 ^ 31 then some (-(n : Int)) else none)
  | cs =>
      (digitsVal cs).bind (fun n => if n ≤ 2 ^ 31 - 1 then some (n : Int) else none)

/-- Embedding of parse_time_to_time (src/src/adapter/webhook.rs lines 18-41
and the identical copy in src/src/bin/main.rs lines 314-337): split on ':',
treat each part that fails to parse as 0, and combine as H*3600+M*60+S,
M*60+S or S by the number of parts, 0 otherwise.  The multiplications and
additions are i32 operations and hence wrap. -/
def parse_time_to_time (time_str : String) : Int :=
  let parts := splitOnColon time_str.toList
  match parts with
  | [h, m, s] =>
      let hours := (parseI32 h).getD 0
      let minutes := (parseI32 m).getD 0
      let time := (parseI32 s).getD 0
      wrap32 (wrap32 (wrap32 (hours * 3600) + wrap32 (minutes * 60)) + time)
  | [m, s] =>
      let minutes := (parseI32 m).getD 0
      let time := (parseI32 s).getD 0
      wrap32 (wrap32 (minutes * 60) + time)
  | [s] => (parseI32 s).getD 0
  | _ => 0

example : parse_time_to_time "01:02:03" = 3723 := by decide
example : parse_time_to_time "02:05" = 125 := by decide
example : parse_time_to_time "45" = 45 := by decide
example : parse_time_to_time "" = 0 := by decide
example : parse_time_to_time "x:y" = 0 := by decide
example : parse_time_to_time "-7" = -7 := by decide
example : parse_time_to_time "596524:0:0" = -2147480896 := by decide

/-- The sequence of wait durations computed by the replay loops
(src/src/bin/main.rs lines 438-464 and src/src/adapter/webhook.rs lines
49-66) threading last_time: each record's wait is current - last when
current is greater (an i32 subtraction, hence wrapping), else 0, and
last is set to current after every record. -/
def waitSeqAux (lastTime : Int) : List String → List Int
  | [] => []
  | t :: rest =>
      let cur := parse_time_to_time t
      (if lastTime < cur then wrap32 (cur - lastTime) else 0) :: waitSeqAux cur rest

/-- Wait durations for a list of record time codes, starting from
last_time = 0 as both loops do. -/
def waitSeq (times : List String) : List Int := waitSeqAux 0 times

/-- The suspension actually issued per record: the loops call sleep only
when the computed wait duration is positive, so a non-positive computed
value means a zero-second wait. -/
def issuedWaits (times : List String) : List Int :=
  (waitSeq times).map (fun w => if 0 < w then w else 0)

/-- Modelled from the spec: the scheduler formula of section 4.3, wait_i =
max(cur_i - last, 0) over unbounded integers, with last updated to cur
after every record.  Stated to be compared with the code's waitSeq. -/
def specWaitsAux (lastTime : Int) : List Int → List Int
  | [] => []
  | cur :: rest => max (cur - lastTime) 0 :: specWaitsAux cur rest

/-- Modelled from the spec: wait sequence of section 4.3 applied to the
parsed offsets of the records' time codes. -/
def specWaits (times : List String) : List Int :=
  specWaitsAux 0 (times.map parse_time_to_time)

example : waitSeq ["0", "5", "5", "12"] = [0, 5, 0, 7] := by decide
example : issuedWaits ["-2000000000", "2000000000"] = [0, 0] := by decide
example : specWaits ["-2000000000", "2000000000"] = [0, 4000000000] := by decide

/-- Outcome of one HTTP POST as observed by the sender: a transport-level
failure (reqwest Err) or a response with a status code. -/
inductive PostResponse where
  | err : PostResponse
  | ok : Nat → PostResponse
deriving DecidableEq, Repr

/-- Body of an outbound webhook POST of the Webhook Sink: a per-record
broadcast message (session_id plus the record, as built in
src/src/adapter/webhook.rs lines 70-73; the interface declaration of
BroadcastMessage in src/src/interface/mod.rs instead carries two
enrichment-session fields, one of the repository's two divergent
envelope shapes) or the completion object (webhook.rs lines 124-127). -/
inductive WebhookPayload where
  | record : Int → TranscriptRecord → WebhookPayload
  | completion : WebhookPayload
deriving DecidableEq, Repr

/-- An HTTP POST request as configured by the code: target url, payload,
and the explicit per-request timeout in seconds if one is set on the
request builder (none means the reqwest default of no timeout, since
Client::new() configures none). -/
structure PostRequest where
  url : String
  payload : WebhookPayload
  timeout : Option Nat
deriving DecidableEq, Repr

/-- The per-record POST issued by broadcast_to_webhook: built on a
Client::new() client with .json(&broadcast_message) and no .timeout call
(src/src/adapter/webhook.rs lines 76-80). -/
def recordRequest (url : String) (session_id : Int) (r : TranscriptRecord) : PostRequest :=
  ⟨url, WebhookPayload.record session_id r, none⟩

/-- The completion POST issued by broadcast_to_webhook after the loop:
same client, no .timeout call (src/src/adapter/webhook.rs lines 129-134). -/
def completionRequest (url : String) : PostRequest :=
  ⟨url, WebhookPayload.completion, none⟩

/-- Reason the webhook loop aborts: a transport error or an HTTP error
status. -/
inductive LoopErr where
  | transport : LoopErr
  | status : Nat → LoopErr
deriving DecidableEq, Repr

/-- Whether a POST outcome makes broadcast_to_webhook abort: any transport
error, or a status that is a client error (4xx) or server error (5xx),
per webhook.rs lines 97 and 109-117. -/
def abortsB : PostResponse → Bool
  | PostResponse.err => true
  | PostResponse.ok s => (400 ≤ s && s < 500) || (500 ≤ s && s < 600)

/-- The record loop of broadcast_to_webhook (src/src/adapter/webhook.rs
lines 53-121): for each record compute the wait from the parsed time code,
issue the per-record POST, and abort returning an error on a transport
failure or a 4xx/5xx status; otherwise set last_time to the current offset
and continue.  resp is the environment oracle giving the outcome of the
k-th POST; the function returns the issued requests, the computed waits,
and the abort reason if any. -/
def webhookLoop (url : String) (session_id : Int) (resp : Nat → PostResponse) :
    List TranscriptRecord → Nat → Int → List PostRequest × List Int × Option LoopErr
  | [], _, _ => ([], [], none)
  | r :: rest, k, lastTime =>
      let cur := parse_time_to_time r.time
      let wait := if lastTime < cur then wrap32 (cur - lastTime) else 0
      let req := recordRequest url session_id r
      match resp k with
      | PostResponse.err => ([req], [wait], some LoopErr.transport)
      | PostResponse.ok s =>
          if (400 ≤ s && s < 500) || (500 ≤ s && s < 600) then
            ([req], [wait], some (LoopErr.status s))
          else
            let out := webhookLoop url session_id resp rest (k + 1) cur
            (req :: out.1, wait :: out.2.1, out.2.2)

/-- Result of a whole webhook broadcast call as surfaced to the caller. -/
inductive BroadcastResult where
  | ok : BroadcastResult
  | errTransport : BroadcastResult
  | errStatus : Nat → BroadcastResult
deriving DecidableEq, Repr

/-- Embedding of broadcast_to_webhook (src/src/adapter/webhook.rs lines
43-152): run the record loop; on an abort surface the error without
sending anything further; otherwise issue the completion POST (whose own
outcome is only logged, never changing the Ok result) and return Ok. -/
def broadcast_to_webhook (url : String) (session_id : Int)
    (records : List TranscriptRecord) (resp : Nat → PostResponse) :
    List PostRequest × List Int × BroadcastResult :=
  let out := webhookLoop url session_id resp records 0 0
  match out.2.2 with
  | some LoopErr.transport => (out.1, out.2.1, BroadcastResult.errTransport)
  | some (LoopErr.status s) => (out.1, out.2.1, BroadcastResult.errStatus s)
  | none => (out.1 ++ [completionRequest url], out.2.1, BroadcastResult.ok)

/-- Rust struct RewindSession (src/src/adapter/websocket.rs lines 6-13):
the per-session state stored in the registry. -/
structure RewindSession where
  job_description_enrichment_session : Option Int
  candidate_profile_enrichment_session : Option Int
  filename : String
  records : List TranscriptRecord
  current_index : Nat
deriving DecidableEq, Repr

/-- The session registry (SessionStore in src/src/adapter/websocket.rs
line 15): a HashMap from session-id string to RewindSession behind a
mutex, embedded as an association list with unique keys; every registry
operation in the source is performed atomically under the lock. -/
abbrev SessionStore : Type := List (String × RewindSession)

/-- HashMap::get under the lock: the value stored at the key, if any. -/
def storeGet (st : SessionStore) (k : String) : Option RewindSession :=
  ((List.find? (fun p => p.1 == k) st)).map (fun p => p.2)

/-- HashMap::contains_key under the lock. -/
def storeContains (st : SessionStore) (k : String) : Bool :=
  (storeGet st k).isSome

/-- HashMap::remove under the lock: delete the entry at the key. -/
def storeRemove (st : SessionStore) (k : String) : SessionStore :=
  List.filter (fun p => !(p.1 == k)) st

/-- HashMap::insert under the lock: bind the key to the value, replacing
any previous binding. -/
def storeInsert (st : SessionStore) (k : String) (v : RewindSession) : SessionStore :=
  (k, v) :: storeRemove st k

/-- The get_mut-based filename update of handle_websocket_broadcast
(src/src/bin/main.rs lines 113-116): if the key is present set its
session's filename, otherwise leave the store unchanged. -/
def storeSetFilename (st : SessionStore) (k : String) (fn : String) : SessionStore :=
  List.map
    (fun p =>
      if p.1 = k then
        (p.1, RewindSession.mk p.2.job_description_enrichment_session
          p.2.candidate_profile_enrichment_session fn p.2.records p.2.current_index)
      else p) st

/-- Rust struct WebSocketBroadcaster (src/src/adapter/websocket.rs lines
17-21) minus the shared registry handle, which the embedding passes
explicitly.  (src/src/bin/main.rs lines 104-107 constructs this struct
with a session_id field instead of the two enrichment fields, the other
of the repository's divergent shapes; the enrichment fields are kept as
declared in the adapter that defines the struct.) -/
structure WebSocketBroadcaster where
  job_description_enrichment_session : Option Int
  candidate_profile_enrichment_session : Option Int
deriving DecidableEq, Repr

/-- Embedding of WebSocketBroadcaster::broadcast (src/src/adapter/websocket.rs
lines 25-42): build a RewindSession with empty filename, the given records
and current_index 0, and insert it into the registry under the key
session_id.to_string() - the textual form of the i32 argument.  Always
returns Ok, so only the updated store is produced. -/
def WebSocketBroadcaster.broadcast (b : WebSocketBroadcaster) (session_id : Int)
    (records : List TranscriptRecord) (st : SessionStore) : SessionStore :=
  storeInsert st (toString session_id)
    (RewindSession.mk b.job_description_enrichment_session
      b.candidate_profile_enrichment_session "" records 0)

/-- An outbound WebSocket text frame of the live-push path: a per-record
message envelope (session metadata plus the record; bin/main.rs lines
457-460 builds it from the session and the record, though the field it
names does not exist on RewindSession and interface/mod.rs declares the
enrichment fields instead, so the envelope is modelled as tagged by its
record) or a literal sentinel text frame. -/
inductive WsFrame where
  | message : TranscriptRecord → WsFrame
  | text : String → WsFrame
deriving DecidableEq, Repr

/-- The record loop of broadcast_session_messages (src/src/bin/main.rs
lines 441-469): per record compute the wait from the parsed time code,
attempt the send of the record frame (sendOk k is the outcome of the k-th
send), abort with failure if the send fails, else thread last_time and
continue.  Returns the attempted frames, the computed waits, and whether
the loop finished without a send failure. -/
def wsLoop (sendOk : Nat → Bool) :
    List TranscriptRecord → Nat → Int → List WsFrame × List Int × Bool
  | [], _, _ => ([], [], true)
  | r :: rest, k, lastTime =>
      let cur := parse_time_to_time r.time
      let wait := if lastTime < cur then wrap32 (cur - lastTime) else 0
      let fr := WsFrame.message r
      if sendOk k then
        let out := wsLoop sendOk rest (k + 1) cur
        (fr :: out.1, wait :: out.2.1, out.2.2)
      else ([fr], [wait], false)

/-- Embedding of broadcast_session_messages (src/src/bin/main.rs lines
424-487): look the session up; if present, replay its records through the
send loop, then send the SESSION_COMPLETE sentinel, and only after that
send succeeds remove the session from the registry and return Ok - any
failing send returns the error immediately, skipping the removal; if the
session is absent, send a single SESSION_NOT_FOUND sentinel and return.
Result components: attempted outbound frames, the registry afterwards,
and true for Ok(()) respectively false for an Err return. -/
def broadcast_session_messages (session_id : String) (st : SessionStore)
    (sendOk : Nat → Bool) : List WsFrame × SessionStore × Bool :=
  match storeGet st session_id with
  | some session =>
      let out := wsLoop sendOk session.records 0 0
      if out.2.2 then
        if sendOk session.records.length then
          (out.1 ++ [WsFrame.text "SESSION_COMPLETE"], storeRemove st session_id, true)
        else
          (out.1 ++ [WsFrame.text "SESSION_COMPLETE"], st, false)
      else (out.1, st, false)
  | none => ([WsFrame.text "SESSION_NOT_FOUND"], st, sendOk 0)

/-- Embedding of handle_websocket_connection after a successful handshake
(src/src/bin/main.rs lines 365-422): with the session id extracted from
the path (empty when the path had no /ws/ segment), return early - sending
nothing - when the id is empty or when the registry does not contain it,
and otherwise run broadcast_session_messages.  The Bool mirrors whether
the broadcast reported Ok. -/
def handle_websocket_connection (pathSessionId : String) (st : SessionStore)
    (sendOk : Nat → Bool) : List WsFrame × SessionStore × Bool :=
  if pathSessionId = "" then ([], st, true)
  else if storeContains st pathSessionId then
    broadcast_session_messages pathSessionId st sendOk
  else ([], st, true)

/-- Rust struct WebsocketInfo (src/src/bin/main.rs lines 38-46): the
response body of the websocket-broadcast trigger endpoint. -/
structure WebsocketInfo where
  websocket_url : String
  session_id : String
  port : Nat
deriving DecidableEq, Repr

/-- Embedding of handle_websocket_broadcast on the load-success path
(src/src/bin/main.rs lines 85-149): the transcript loader is an excluded
collaborator, so the loaded records are an input; the freshly generated
uuid (Uuid::new_v4) is nondeterministic and passed as an input.  The
handler runs WebSocketBroadcaster::broadcast with the i32 session_id
query parameter, then updates the filename of the entry at the uuid key
(a no-op whenever no entry has that key), and answers with the websocket
url built from the uuid, the uuid as session id, and port 8081. -/
def handle_websocket_broadcast (filename : String) (session_id : Int)
    (session_uuid : String) (records : List TranscriptRecord) (st : SessionStore) :
    WebsocketInfo × SessionStore :=
  let b := WebSocketBroadcaster.mk none none
  let st1 := b.broadcast session_id records st
  let st2 := storeSetFilename st1 session_uuid filename
  (WebsocketInfo.mk (String.append "ws://0.0.0.0:8081/ws/" session_uuid) session_uuid 8081, st2)

/-- Rust struct TranscriptionEvent (src/src/adapter/fireflies.rs lines
17-28): the decoded bridge event.  The serde rename maps the JSON field
"type" to event_type and "transcriptId" to transcript_id; timestamp is an
i64 and confidence an optional f64 (JSON numbers are modelled as exact
rationals). -/
structure TranscriptionEvent where
  event_type : String
  timestamp : Int
  speaker : String
  text : String
  confidence : Option Rat
  is_final : Option Bool
  transcript_id : Option String
deriving DecidableEq, Repr

/-- A JSON value (serde_json::Value), with numbers as exact rationals. -/
inductive Json where
  | null : Json
  | bool : Bool → Json
  | num : Rat → Json
  | str : String → Json
  | arr : List Json → Json
  | obj : List (String × Json) → Json

/-- Lookup of an object field by name (serde_json Value::get on a map). -/
def jField (fields : List (String × Json)) (name : String) : Option Json :=
  ((List.find? (fun p => p.1 == name) fields)).map (fun p => p.2)

/-- Value::get of the whole value: a field of an object, none otherwise. -/
def jGet (j : Json) (name : String) : Option Json :=
  match j with
  | Json.obj fields => jField fields name
  | _ => none

/-- Decoding a JSON value as a string (serde for String). -/
def jAsStr : Json → Option String
  | Json.str s => some s
  | _ => none

/-- Decoding a JSON value as a bool (serde for bool). -/
def jAsBool : Json → Option Bool
  | Json.bool b => some b
  | _ => none

/-- Decoding a JSON value as an i64 (serde for i64): an integral number
within the i64 range. -/
def jAsI64 : Json → Option Int
  | Json.num q => if q.den = 1 ∧ -(2 ^ 63) ≤ q.num ∧ q.num < 2 ^ 63 then some q.num else none
  | _ => none

/-- Decoding a JSON value as an f64 confidence (serde for f64): any
number; modelled exactly. -/
def jAsNum : Json → Option Rat
  | Json.num q => some q
  | _ => none

/-- Serde decoding of an optional field: absent or null gives none, a
present non-null value must decode, anything else is a decode error. -/
def jOptField (fields : List (String × Json)) (name : String)
    (conv : Json → Option α) : Option (Option α) :=
  match jField fields name with
  | none => some none
  | some Json.null => some none
  | some v => (conv v).map some

/-- Serde decoding of TranscriptionEvent from a JSON value
(serde_json::from_value::<TranscriptionEvent> in fireflies.rs line 115 and
the from_str at line 131): requires an object with string "type", i64
"timestamp", string "speaker" and string "text"; "confidence", "is_final"
and "transcriptId" are optional; unknown fields are ignored. -/
def decodeEvent (j : Json) : Option TranscriptionEvent :=
  match j with
  | Json.obj fields =>
      (jField fields "type").bind (fun tv =>
      (jAsStr tv).bind (fun ty =>
      (jField fields "timestamp").bind (fun tsv =>
      (jAsI64 tsv).bind (fun ts =>
      (jField fields "speaker").bind (fun spv =>
      (jAsStr spv).bind (fun sp =>
      (jField fields "text").bind (fun txv =>
      (jAsStr txv).bind (fun tx =>
      (jOptField fields "confidence" jAsNum).bind (fun conf =>
      (jOptField fields "is_final" jAsBool).bind (fun fin =>
      (jOptField fields "transcriptId" jAsStr).map (fun tid =>
      TranscriptionEvent.mk ty ts sp tx conf fin tid)))))))))))
  | _ => none

/-- The type discriminator of an inbound frame:
parsed.get("type").and_then(as_str) in fireflies.rs line 91. -/
def typeDiscriminator (j : Json) : Option String :=
  (jGet j "type").bind jAsStr

/-- Processing of one inbound JSON text frame by the streaming read loop
of FirefliesBridge::start (src/src/adapter/fireflies.rs lines 88-144):
the four control frame kinds only log; a transcription.broadcast frame
decodes its "data" payload and enqueues the event on success or logs a
decode error on failure (a frame of that type without a "data" field is
silently ignored); every other frame - unrecognized or missing type
discriminator - is attempted as a direct TranscriptionEvent parse of the
whole frame and enqueued if that succeeds.  Returns the events enqueued
by this frame and whether a payload decode error was logged. -/
def processTextFrame (j : Json) : List TranscriptionEvent × Bool :=
  let t := typeDiscriminator j
  if t = some "auth.success" then ([], false)
  else if t = some "auth.failed" then ([], false)
  else if t = some "connection.established" then ([], false)
  else if t = some "connection.error" then ([], false)
  else if t = some "transcription.broadcast" then
    match jGet j "data" with
    | some d =>
        match decodeEvent d with
        | some e => ([e], false)
        | none => ([], true)
    | none => ([], false)
  else
    match decodeEvent j with
    | some e => ([e], false)
    | none => ([], false)

/-- The streaming read loop over a sequence of inbound JSON text frames:
each frame is processed in order and the loop always continues to the
next frame (only a close frame or a read error ends it, and neither is a
decode failure).  Returns all enqueued events in order and the number of
logged payload decode errors. -/
def readLoop : List Json → List TranscriptionEvent × Nat
  | [] => ([], 0)
  | j :: rest =>
      let here := processTextFrame j
      let further := readLoop rest
      (here.1 ++ further.1, (if here.2 then 1 else 0) + further.2)

/-- A POST issued by FirefliesWebhookForwarder::forward_event
(src/src/adapter/fireflies.rs lines 192-205): the payload wraps the event
with a source marker and the receipt timestamp, and the request builder
sets an explicit 30-second timeout. -/
structure ForwardRequest where
  url : String
  source : String
  event : TranscriptionEvent
  timestamp : Int
  timeout : Option Nat
deriving DecidableEq, Repr

/-- Embedding of forward_event: the receipt time (chrono::Utc::now) is an
environment input. -/
def forward_event (url : String) (e : TranscriptionEvent) (now : Int) : ForwardRequest :=
  ForwardRequest.mk url "fireflies" e now (some 30)

/-! Helper lemmas. -/

theorem wrap32_bounds (z : Int) : -(2 ^ 31) ≤ wrap32 z ∧ wrap32 z < 2 ^ 31 := by
  unfold wrap32; omega

theorem wrap32_eq_self (z : Int) (h1 : -(2 ^ 31) ≤ z) (h2 : z < 2 ^ 31) : wrap32 z = z := by
  unfold wrap32; omega

theorem wrap32_add_left (a b : Int) : wrap32 (wrap32 a + b) = wrap32 (a + b) := by
  unfold wrap32; omega

theorem wrap32_add_right (a b : Int) : wrap32 (a + wrap32 b) = wrap32 (a + b) := by
  unfold wrap32; omega

theorem parseI32_range (cs : List Char) (z : Int) (h : parseI32 cs = some z) :
    -(2 ^ 31) ≤ z ∧ z < 2 ^ 31 := by
  unfold parseI32 at h
  split at h
  · rcases Option.bind_eq_some.mp h with ⟨n, _, hn⟩
    split at hn
    · cases hn; omega
    · cases hn
  · rcases Option.bind_eq_some.mp h with ⟨n, _, hn⟩
    split at hn
    · cases hn; omega
    · cases hn
  · rcases Option.bind_eq_some.mp h with ⟨n, _, hn⟩
    split at hn
    · cases hn; omega
    · cases hn

theorem parseI32_getD_range (cs : List Char) :
    -(2 ^ 31) ≤ (parseI32 cs).getD 0 ∧ (parseI32 cs).getD 0 < 2 ^ 31 := by
  cases h : parseI32 cs with
  | none => simp
  | some z => simpa using parseI32_range cs z h

theorem parse_time_range (s : String) :
    -(2 ^ 31) ≤ parse_time_to_time s ∧ parse_time_to_time s < 2 ^ 31 := by
  unfold parse_time_to_time
  rcases hs : splitOnColon s.toList with _ | ⟨a, _ | ⟨b, _ | ⟨c, _ | ⟨d, rest⟩⟩⟩⟩ <;>
    simp only [hs] <;>
    first
      | exact ⟨by omega, by omega⟩
      | exact parseI32_getD_range _
      | exact wrap32_bounds _

theorem storeGet_insert_self (st : SessionStore) (k : String) (v : RewindSession) :
    storeGet (storeInsert st k v) k = some v := by
  simp [storeGet, storeInsert, List.find?]

/-! Claim theorems. -/

/-- C1, counterexample: connecting with session id "abc" against an empty
registry produces no frames at all - not the single SESSION_NOT_FOUND
frame the claim asserts - because handle_websocket_connection returns
right after its contains_key check fails, before any sender exists. -/
theorem c1_counterexample :
    (handle_websocket_connection "abc" ([] : SessionStore) (fun _ => true)).1 = [] ∧
    (handle_websocket_connection "abc" ([] : SessionStore) (fun _ => true)).1 ≠
      [WsFrame.text "SESSION_NOT_FOUND"] := by
  decide

/-- C1, amended: a live-push connection whose session id is absent from
the registry at the connection-time check is closed with no output frames
sent at all; the single SESSION_NOT_FOUND frame is produced only by the
broadcast phase, reachable when the session was present at the check but
is gone by the time broadcast_session_messages looks it up again. -/
theorem c1_unknown_session_silent_close (st : SessionStore) (id : String)
    (sendOk : Nat → Bool) (h : storeGet st id = none) :
    handle_websocket_connection id st sendOk = ([], st, true) ∧
    broadcast_session_messages id st sendOk =
      ([WsFrame.text "SESSION_NOT_FOUND"], st, sendOk 0) := by
  constructor
  · unfold handle_websocket_connection
    split
    · rfl
    · simp [storeContains, h]
  · simp [broadcast_session_messages, h]

/-- C1, witness for the amended theorem at a concrete input. -/
theorem c1_witness :
    handle_websocket_connection "abc" ([] : SessionStore) (fun _ => true) =
      ([], [], true) ∧
    broadcast_session_messages "abc" ([] : SessionStore) (fun _ => true) =
      ([WsFrame.text "SESSION_NOT_FOUND"], [], true) :=
  c1_unknown_session_silent_close [] "abc" (fun _ => true) rfl

/-- C2, counterexample: with a registered one-record session and a sender
whose first send fails, the broadcast surfaces the failure (result false)
but the registry afterwards still contains the session - the early error
return skips the removal, contradicting the claim that the session is
still retired when a send fails mid-replay. -/
theorem c2_counterexample :
    broadcast_session_messages "s"
        [("s", RewindSession.mk none none "f" [TranscriptRecord.mk "0" "A" "hi"] 0)]
        (fun _ => false) =
      ([WsFrame.message (TranscriptRecord.mk "0" "A" "hi")],
        [("s", RewindSession.mk none none "f" [TranscriptRecord.mk "0" "A" "hi"] 0)],
        false) ∧
    storeGet [("s", RewindSession.mk none none "f" [TranscriptRecord.mk "0" "A" "hi"] 0)]
        "s" ≠ none := by
  decide

/-- C2, amended: for a session present in the registry, the replay removes
the session exactly once - by the single removal after every record frame
and the SESSION_COMPLETE sentinel were sent successfully - and on any
outbound send failure the error is surfaced to the caller while the
registry is left unchanged, so the session is NOT retired on the failure
path. -/
theorem c2_retire_only_on_success (st : SessionStore) (id : String)
    (sendOk : Nat → Bool) (sess : RewindSession) (h : storeGet st id = some sess) :
    ((broadcast_session_messages id st sendOk).2.2 = true →
      (broadcast_session_messages id st sendOk).2.1 = storeRemove st id) ∧
    ((broadcast_session_messages id st sendOk).2.2 = false →
      (broadcast_session_messages id st sendOk).2.1 = st) := by
  unfold broadcast_session_messages
  rw [h]
  cases hloop : (wsLoop sendOk sess.records 0 0).2.2 with
  | false => simp [hloop]
  | true =>
    cases hsend : sendOk sess.records.length with
    | false => simp [hloop, hsend]
    | true => simp [hloop, hsend]

/-- C2, witness for the amended theorem at a concrete input: a fully
successful replay does remove the session. -/
theorem c2_witness :
    (broadcast_session_messages "s"
        [("s", RewindSession.mk none none "f" [TranscriptRecord.mk "0" "A" "hi"] 0)]
        (fun _ => true)).2.1 =
      storeRemove
        [("s", RewindSession.mk none none "f" [TranscriptRecord.mk "0" "A" "hi"] 0)] "s" :=
  (c2_retire_only_on_success
    [("s", RewindSession.mk none none "f" [TranscriptRecord.mk "0" "A" "hi"] 0)]
    "s" (fun _ => true)
    (RewindSession.mk none none "f" [TranscriptRecord.mk "0" "A" "hi"] 0)
    (by decide)).1 (by decide)

/-- C5, counterexample: a registered session with one record is fully
replayed and retired (registry empty afterwards, result Ok), while its
stored cursor is 0 both at creation and at the moment of removal - the
registry entry is never written between creation and removal - so the
cursor never reaches len(records) = 1 before retirement, contradicting
the claim that it reaches len(records) exactly once. -/
theorem c5_counterexample :
    broadcast_session_messages "7"
        [("7", RewindSession.mk none none "" [TranscriptRecord.mk "0" "A" "hi"] 0)]
        (fun _ => true) =
      ([WsFrame.message (TranscriptRecord.mk "0" "A" "hi"),
        WsFrame.text "SESSION_COMPLETE"], [], true) ∧
    (RewindSession.mk none none "" [TranscriptRecord.mk "0" "A" "hi"] 0).current_index
      = 0 ∧
    (RewindSession.mk none none "" [TranscriptRecord.mk "0" "A" "hi"] 0).records.length
      = 1 ∧
    (0 : Nat) ≠ 1 := by
  decide

/-- C5, amended: the cursor is created at 0 by WebSocketBroadcaster's
registry insert, and the delivery loop never writes it - the registry
after a replay is either unchanged or has the session removed whole - so
current_index is trivially monotone and never exceeds len(records), but
it stays 0 and never reaches len(records) before retirement unless the
record list is empty. -/
theorem c5_cursor_constant (b : WebSocketBroadcaster) (sid : Int)
    (records : List TranscriptRecord) (st : SessionStore) (id : String)
    (sendOk : Nat → Bool) :
    storeGet (WebSocketBroadcaster.broadcast b sid records st) (toString sid) =
      some (RewindSession.mk b.job_description_enrichment_session
        b.candidate_profile_enrichment_session "" records 0) ∧
    ((broadcast_session_messages id st sendOk).2.1 = st ∨
      (broadcast_session_messages id st sendOk).2.1 = storeRemove st id) := by
  constructor
  · exact storeGet_insert_self st (toString sid) _
  · unfold broadcast_session_messages
    cases h : storeGet st id with
    | none => simp
    | some sess =>
      cases hloop : (wsLoop sendOk sess.records 0 0).2.2 with
      | false => simp [hloop]
      | true =>
        cases hsend : sendOk sess.records.length with
        | false => simp [hloop, hsend]
        | true => simp [hloop, hsend]

/-- Every request issued by the webhook record loop carries no explicit
timeout, whatever the oracle outcomes. -/
theorem webhookLoop_timeout (url : String) (sid : Int) (resp : Nat → PostResponse) :
    ∀ (records : List TranscriptRecord) (k : Nat) (lastTime : Int) (req : PostRequest),
      req ∈ (webhookLoop url sid resp records k lastTime).1 → req.timeout = none := by
  intro records
  induction records with
  | nil => intro k lastTime req h; simp [webhookLoop] at h
  | cons r rest ih =>
    intro k lastTime req h
    cases hr : resp k with
    | err =>
      simp only [webhookLoop, hr] at h
      simp at h
      rw [h]; rfl
    | ok s =>
      simp only [webhookLoop, hr] at h
      cases hc : ((400 ≤ s && s < 500) || (500 ≤ s && s < 600)) with
      | true =>
        rw [hc] at h
        simp at h
        rw [h]; rfl
      | false =>
        rw [hc] at h
        simp at h
        rcases h with h | h
        · rw [h]; rfl
        · exact ih (k + 1) (parse_time_to_time r.time) req h

/-- C3, counterexample: in a concrete successful broadcast both issued
POSTs (the per-record POST and the completion POST) are built without any
explicit request timeout, so the first one already refutes the claim that
every POST is sent with a fixed 30-second timeout. -/
theorem c3_counterexample :
    (broadcast_to_webhook "u" 1 [TranscriptRecord.mk "0" "A" "hi"]
        (fun _ => PostResponse.ok 200)).1 =
      [recordRequest "u" 1 (TranscriptRecord.mk "0" "A" "hi"), completionRequest "u"] ∧
    (recordRequest "u" 1 (TranscriptRecord.mk "0" "A" "hi")).timeout ≠ some 30 := by
  decide

/-- C3, amended: every POST issued by the Webhook Sink - per-record and
completion alike - is sent with no explicit request timeout at all (the
client is reqwest Client::new(), whose default has no timeout); the fixed
30-second per-POST timeout exists only on the bridge forwarder's webhook
POSTs in forward_event. -/
theorem c3_no_timeout_on_webhook_posts :
    (∀ (url : String) (sid : Int) (records : List TranscriptRecord)
        (resp : Nat → PostResponse) (req : PostRequest),
      req ∈ (broadcast_to_webhook url sid records resp).1 → req.timeout = none) ∧
    (∀ (url : String) (e : TranscriptionEvent) (now : Int),
      (forward_event url e now).timeout = some 30) := by
  constructor
  · intro url sid records resp req hmem
    simp only [broadcast_to_webhook] at hmem
    rcases he : (webhookLoop url sid resp records 0 0).2.2 with _ | e
    · rw [he] at hmem
      simp at hmem
      rcases hmem with hmem | hmem
      · exact webhookLoop_timeout url sid resp records 0 0 req hmem
      · rw [hmem]; rfl
    · cases e with
      | transport =>
        rw [he] at hmem
        simp at hmem
        exact webhookLoop_timeout url sid resp records 0 0 req hmem
      | status s =>
        rw [he] at hmem
        simp at hmem
        exact webhookLoop_timeout url sid resp records 0 0 req hmem
  · intro url e now; rfl

/-- C3, witness for the amended theorem at concrete inputs. -/
theorem c3_witness :
    (completionRequest "u").timeout = none ∧
    (forward_event "u" (TranscriptionEvent.mk "t" 0 "sp" "tx" none none none) 5).timeout =
      some 30 :=
  ⟨c3_no_timeout_on_webhook_posts.1 "u" 0 [] (fun _ => PostResponse.ok 200)
      (completionRequest "u") (by decide),
    c3_no_timeout_on_webhook_posts.2 "u"
      (TranscriptionEvent.mk "t" 0 "sp" "tx" none none none) 5⟩

/-- If the record loop reaches index i (the first i responses are
non-aborting) and the i-th POST outcome aborts, the loop emits exactly
the first i+1 record requests and stops with an error. -/
theorem webhookLoop_abort (url : String) (sid : Int) (resp : Nat → PostResponse) :
    ∀ (records : List TranscriptRecord) (i k : Nat) (lastTime : Int),
      (∀ j, j < i → abortsB (resp (k + j)) = false) →
      abortsB (resp (k + i)) = true →
      i < records.length →
      (webhookLoop url sid resp records k lastTime).1 =
        (records.take (i + 1)).map (recordRequest url sid) ∧
      (webhookLoop url sid resp records k lastTime).2.2 ≠ none := by
  intro records
  induction records with
  | nil => intro i k lastTime h1 h2 h3; simp at h3
  | cons r rest ih =>
    intro i k lastTime h1 h2 h3
    cases i with
    | zero =>
      rw [Nat.add_zero] at h2
      cases hr : resp k with
      | err => simp only [webhookLoop, hr]; simp
      | ok s =>
        rw [hr] at h2
        have hc : ((400 ≤ s && s < 500) || (500 ≤ s && s < 600)) = true := h2
        simp only [webhookLoop, hr]
        rw [hc]
        simp
    | succ i' =>
      have h0 := h1 0 (Nat.succ_pos i')
      rw [Nat.add_zero] at h0
      cases hr : resp k with
      | err => rw [hr] at h0; simp [abortsB] at h0
      | ok s =>
        rw [hr] at h0
        have hc : ((400 ≤ s && s < 500) || (500 ≤ s && s < 600)) = false := h0
        simp only [webhookLoop, hr]
        rw [hc]
        have h1' : ∀ j, j < i' → abortsB (resp (k + 1 + j)) = false := by
          intro j hj
          have e : k + 1 + j = k + (j + 1) := by omega
          rw [e]
          exact h1 (j + 1) (by omega)
        have h2' : abortsB (resp (k + 1 + i')) = true := by
          have e : k + 1 + i' = k + (i' + 1) := by omega
          rw [e]; exact h2
        have h3' : i' < rest.length := by simp at h3; omega
        have hrec := ih i' (k + 1) (parse_time_to_time r.time) h1' h2' h3'
        constructor
        · simp only [List.take_succ_cons, List.map_cons]
          rw [← hrec.1]
          rfl
        · exact hrec.2

/-- C6: evaluation of the trigger handler at a concrete input shows the
divergence: with query session_id 7 and generated uuid "abc", the handler
stores the session under key "7" (the stringified integer) yet answers
with session id "abc" and a websocket url ending in "abc" - so the
registry does not contain the id returned to the caller, the handler's
own filename update at the uuid key missed (filename still empty), and
its own websocket connection handler looking up "abc" will not find the
session. -/
theorem c6_registry_key_mismatch :
    handle_websocket_broadcast "f.csv" 7 "abc" [TranscriptRecord.mk "0" "A" "hi"]
        ([] : SessionStore) =
      (WebsocketInfo.mk "ws://0.0.0.0:8081/ws/abc" "abc" 8081,
        [("7", RewindSession.mk none none "" [TranscriptRecord.mk "0" "A" "hi"] 0)]) ∧
    storeGet [("7", RewindSession.mk none none "" [TranscriptRecord.mk "0" "A" "hi"] 0)]
        "abc" = none := by
  decide

/-- C4: if the record loop reaches record i (all earlier POSTs were
non-aborting) and the POST for record i yields a transport error or a
4xx/5xx status, the broadcast stops immediately: exactly the first i+1
records are POSTed, the call reports failure, and the completion POST is
never issued. -/
theorem c4_webhook_abort (url : String) (sid : Int) (records : List TranscriptRecord)
    (resp : Nat → PostResponse) (i : Nat)
    (h1 : ∀ j, j < i → abortsB (resp j) = false)
    (h2 : abortsB (resp i) = true) (h3 : i < records.length) :
    (broadcast_to_webhook url sid records resp).1 =
      (records.take (i + 1)).map (recordRequest url sid) ∧
    (broadcast_to_webhook url sid records resp).2.2 ≠ BroadcastResult.ok ∧
    completionRequest url ∉ (broadcast_to_webhook url sid records resp).1 := by
  have hl := webhookLoop_abort url sid resp records i 0 0
    (by intro j hj; simpa using h1 j hj) (by simpa using h2) h3
  have hmain :
      (broadcast_to_webhook url sid records resp).1 =
        (records.take (i + 1)).map (recordRequest url sid) ∧
      (broadcast_to_webhook url sid records resp).2.2 ≠ BroadcastResult.ok := by
    rcases he : (webhookLoop url sid resp records 0 0).2.2 with _ | e
    · exact absurd he hl.2
    · cases e with
      | transport =>
        simp only [broadcast_to_webhook, he]
        exact ⟨hl.1, by simp⟩
      | status s =>
        simp only [broadcast_to_webhook, he]
        exact ⟨hl.1, by simp⟩
  refine ⟨hmain.1, hmain.2, ?_⟩
  rw [hmain.1]
  intro hmem
  rcases List.mem_map.mp hmem with ⟨r, _, hq⟩
  simp [recordRequest, completionRequest] at hq

/-- C4, witness: a mock endpoint answering HTTP 500 on the 2nd of 4
records makes the broadcast send exactly 2 records, report failure, and
never issue the completion POST. -/
theorem c4_witness :
    (broadcast_to_webhook "u" 1
        [TranscriptRecord.mk "0" "A" "a", TranscriptRecord.mk "1" "B" "b",
          TranscriptRecord.mk "2" "C" "c", TranscriptRecord.mk "3" "D" "d"]
        (fun n => if n = 1 then PostResponse.ok 500 else PostResponse.ok 200)).1 =
      (([TranscriptRecord.mk "0" "A" "a", TranscriptRecord.mk "1" "B" "b",
          TranscriptRecord.mk "2" "C" "c", TranscriptRecord.mk "3" "D" "d"].take 2).map
        (recordRequest "u" 1)) ∧
    (broadcast_to_webhook "u" 1
        [TranscriptRecord.mk "0" "A" "a", TranscriptRecord.mk "1" "B" "b",
          TranscriptRecord.mk "2" "C" "c", TranscriptRecord.mk "3" "D" "d"]
        (fun n => if n = 1 then PostResponse.ok 500 else PostResponse.ok 200)).2.2 ≠
      BroadcastResult.ok ∧
    completionRequest "u" ∉ (broadcast_to_webhook "u" 1
        [TranscriptRecord.mk "0" "A" "a", TranscriptRecord.mk "1" "B" "b",
          TranscriptRecord.mk "2" "C" "c", TranscriptRecord.mk "3" "D" "d"]
        (fun n => if n = 1 then PostResponse.ok 500 else PostResponse.ok 200)).1 :=
  c4_webhook_abort "u" 1
    [TranscriptRecord.mk "0" "A" "a", TranscriptRecord.mk "1" "B" "b",
      TranscriptRecord.mk "2" "C" "c", TranscriptRecord.mk "3" "D" "d"]
    (fun n => if n = 1 then PostResponse.ok 500 else PostResponse.ok 200) 1
    (by intro j hj; rw [Nat.lt_one_iff.mp hj]; decide)
    (by decide) (by decide)

/-- The webhook record loop is insensitive to the exact outcome of a
non-aborting response: two oracles that agree on which POSTs abort, and
agree pointwise on every aborting outcome, drive the loop identically. -/
theorem webhookLoop_congr (url : String) (sid : Int) (resp resp2 : Nat → PostResponse)
    (hab : ∀ n, abortsB (resp n) = abortsB (resp2 n))
    (heq : ∀ n, abortsB (resp n) = true → resp n = resp2 n) :
    ∀ (records : List TranscriptRecord) (k : Nat) (lastTime : Int),
      webhookLoop url sid resp records k lastTime =
        webhookLoop url sid resp2 records k lastTime := by
  intro records
  induction records with
  | nil => intro k lastTime; rfl
  | cons r rest ih =>
    intro k lastTime
    cases hr : resp k with
    | err =>
      have h2 : resp2 k = PostResponse.err := by
        have := heq k (by rw [hr]; rfl)
        rw [hr] at this; exact this.symm
      simp only [webhookLoop, hr, h2]
    | ok s =>
      cases hr2 : resp2 k with
      | err =>
        have hb := hab k
        rw [hr, hr2] at hb
        have := heq k (by rw [hr]; exact hb.trans rfl)
        rw [hr, hr2] at this
        cases this
      | ok s2 =>
        have hb := hab k
        rw [hr, hr2] at hb
        cases hc : ((400 ≤ s && s < 500) || (500 ≤ s && s < 600)) with
        | true =>
          have := heq k (by rw [hr]; exact hc)
          rw [hr, hr2] at this
          injection this with hss
          subst hss
          simp only [webhookLoop, hr, hr2]
          simp [hc]
        | false =>
          have hc2 : ((400 ≤ s2 && s2 < 500) || (500 ≤ s2 && s2 < 600)) = false := by
            have : abortsB (PostResponse.ok s2) = false := by rw [← hb]; exact hc
            exact this
          simp only [webhookLoop, hr, hr2]
          rw [hc, hc2]
          rw [ih (k + 1) (parse_time_to_time r.time)]
          rfl

/-- C10: a per-record POST outcome with a status that is neither a 2xx
success nor a 4xx/5xx error (for example a 3xx redirect or a 1xx status)
does not abort the broadcast: the whole broadcast - requests issued,
waits computed (hence the previous-offset tracker), and the final result
- is identical to the broadcast in which that POST had returned 200, so
delivery proceeds with the next record as if the POST had succeeded. -/
theorem c10_non_error_status_continues (url : String) (sid : Int)
    (records : List TranscriptRecord) (resp : Nat → PostResponse) (i : Nat) (s : Nat)
    (hs : resp i = PostResponse.ok s)
    (_h2xx : ¬(200 ≤ s ∧ s < 300)) (h45 : ¬(400 ≤ s ∧ s < 600)) :
    broadcast_to_webhook url sid records resp =
      broadcast_to_webhook url sid records
        (fun n => if n = i then PostResponse.ok 200 else resp n) := by
  have hci : abortsB (resp i) = false := by
    rw [hs]
    simp only [abortsB]
    simp
    omega
  have hab : ∀ n, abortsB (resp n) =
      abortsB ((fun n => if n = i then PostResponse.ok 200 else resp n) n) := by
    intro n
    by_cases hn : n = i
    · subst hn
      simp only [if_pos rfl]
      rw [hci]
      rfl
    · simp only [if_neg hn]
  have heq : ∀ n, abortsB (resp n) = true →
      resp n = (fun n => if n = i then PostResponse.ok 200 else resp n) n := by
    intro n hn
    by_cases hni : n = i
    · subst hni
      rw [hci] at hn
      cases hn
    · simp only [if_neg hni]
  unfold broadcast_to_webhook
  rw [webhookLoop_congr url sid resp _ hab heq records 0 0]

/-- C10, witness: a 301 on the first of two records leaves the whole
broadcast equal to the broadcast where that POST returned 200. -/
theorem c10_witness :
    broadcast_to_webhook "u" 1
        [TranscriptRecord.mk "0" "A" "a", TranscriptRecord.mk "1" "B" "b"]
        (fun n => if n = 0 then PostResponse.ok 301 else PostResponse.ok 200) =
      broadcast_to_webhook "u" 1
        [TranscriptRecord.mk "0" "A" "a", TranscriptRecord.mk "1" "B" "b"]
        (fun n => if n = 0 then PostResponse.ok 200
          else (fun m => if m = 0 then PostResponse.ok 301 else PostResponse.ok 200) n) :=
  c10_non_error_status_continues "u" 1
    [TranscriptRecord.mk "0" "A" "a", TranscriptRecord.mk "1" "B" "b"]
    (fun n => if n = 0 then PostResponse.ok 301 else PostResponse.ok 200) 0 301
    rfl (by omega) (by omega)

/-- The code's wait sequence agrees with the spec formula whenever every
parsed offset is nonnegative, for any nonnegative starting offset. -/
theorem waitSeqAux_eq_spec (ts : List String) :
    ∀ prev : Int, 0 ≤ prev → prev < 2 ^ 31 →
      (∀ t, t ∈ ts → 0 ≤ parse_time_to_time t) →
      waitSeqAux prev ts = specWaitsAux prev (ts.map parse_time_to_time) := by
  induction ts with
  | nil => intro prev _ _ _; rfl
  | cons t rest ih =>
    intro prev hp0 hp1 hall
    have hcur0 : 0 ≤ parse_time_to_time t := hall t (List.mem_cons_self t rest)
    have hcur1 := (parse_time_range t).2
    simp only [waitSeqAux, specWaitsAux, List.map_cons]
    congr 1
    · by_cases hlt : prev < parse_time_to_time t
      · rw [if_pos hlt, wrap32_eq_self _ (by omega) (by omega)]
        omega
      · rw [if_neg hlt]
        omega
    · exact ih (parse_time_to_time t) hcur0 hcur1
        (fun x hx => hall x (List.mem_cons_of_mem t hx))

/-- Entries of the spec formula's wait sequence are never negative. -/
theorem specWaitsAux_nonneg :
    ∀ (xs : List Int) (prev w : Int), w ∈ specWaitsAux prev xs → 0 ≤ w := by
  intro xs
  induction xs with
  | nil => intro prev w hw; simp [specWaitsAux] at hw
  | cons x rest ih =>
    intro prev w hw
    simp only [specWaitsAux] at hw
    rcases List.mem_cons.mp hw with h | h
    · rw [h]; omega
    · exact ih x w h

/-- Clamping to the positives is the identity on a list of nonnegative
integers. -/
theorem map_clamp_eq_self :
    ∀ ws : List Int, (∀ w, w ∈ ws → 0 ≤ w) →
      ws.map (fun w => if 0 < w then w else 0) = ws := by
  intro ws
  induction ws with
  | nil => intro _; rfl
  | cons x rest ih =>
    intro h
    simp only [List.map_cons]
    have hx := h x (List.mem_cons_self x rest)
    have hhead : (if 0 < x then x else 0) = x := by split <;> omega
    rw [hhead, ih (fun w hw => h w (List.mem_cons_of_mem x hw))]

/-- C7, counterexample: for records at the (exotic but parseable) offsets
-2000000000 and 2000000000 the claimed formula demands a wait of
max(2000000000 - (-2000000000), 0) = 4000000000 seconds before the second
record, but the code's i32 subtraction wraps to a negative value, so no
suspension is issued at all (wait 0). -/
theorem c7_counterexample :
    issuedWaits ["-2000000000", "2000000000"] = [0, 0] ∧
    max (parse_time_to_time "2000000000" - parse_time_to_time "-2000000000") 0 =
      4000000000 ∧
    ((0 : Int) ≠ 4000000000) := by
  decide

/-- C7, amended: per record the code computes wait = cur - last as an i32
subtraction when cur is greater (wrapping on overflow) and 0 otherwise,
issues a suspension only for positive values, and sets last to cur after
every record regardless of clamping; whenever every parsed offset is
nonnegative (every real timecode) the waits equal the spec formula
max(cur_i - cur_im1, 0) with the offset before the first record taken as
0 - in particular offsets [0, 5, 5, 12] give waits [0, 5, 0, 7] - and an
issued wait is never negative. -/
theorem c7_waits (ts : List String) (w : Int)
    (hnn : ∀ t, t ∈ ts → 0 ≤ parse_time_to_time t) (hw : w ∈ issuedWaits ts) :
    waitSeq ts = specWaits ts ∧
    issuedWaits ts = specWaits ts ∧
    waitSeq ["0", "5", "5", "12"] = [0, 5, 0, 7] ∧
    0 ≤ w := by
  have hws : waitSeq ts = specWaits ts :=
    waitSeqAux_eq_spec ts 0 (le_refl 0) (by omega) hnn
  have hiw : issuedWaits ts = specWaits ts := by
    unfold issuedWaits
    rw [hws]
    exact map_clamp_eq_self (specWaits ts)
      (fun v hv => specWaitsAux_nonneg (ts.map parse_time_to_time) 0 v hv)
  refine ⟨hws, hiw, by decide, ?_⟩
  unfold issuedWaits at hw
  rcases List.mem_map.mp hw with ⟨v, _, hvw⟩
  rw [← hvw]
  split <;> omega

/-- C7, witness for the amended theorem at the spec's own example. -/
theorem c7_witness :
    waitSeq ["0", "5", "5", "12"] = specWaits ["0", "5", "5", "12"] ∧
    issuedWaits ["0", "5", "5", "12"] = specWaits ["0", "5", "5", "12"] ∧
    waitSeq ["0", "5", "5", "12"] = [0, 5, 0, 7] ∧
    (0 : Int) ≤ 0 :=
  c7_waits ["0", "5", "5", "12"] 0 (by decide) (by decide)

/-- The nested i32 wraps of the parser's three-part combination collapse
to a single wrap of the exact integer value. -/
theorem wrap32_three_collapse (a b c : Int) :
    wrap32 (wrap32 (wrap32 a + wrap32 b) + c) = wrap32 (a + b + c) := by
  rw [wrap32_add_left a (wrap32 b), wrap32_add_right a b, wrap32_add_left (a + b) c]

/-- C8, counterexample: on the input "596524:0:0" the claimed value
H*3600+M*60+S = 2147486400 exceeds the i32 range, so a release build
wraps (returning -2147480896, as embedded here) and a debug build panics;
either way the parser does not return H*3600+M*60+S, refuting the claim
for every input string. -/
theorem c8_counterexample :
    parse_time_to_time "596524:0:0" = -2147480896 ∧
    ((-2147480896 : Int) ≠ 596524 * 3600 + 0 * 60 + 0) := by
  decide

/-- C8, amended: the parser splits on ':' and combines the parts - each
part that fails i32 parsing taken as 0, no error raised in the embedded
(release) semantics - as H*3600+M*60+S for 3 parts, M*60+S for 2 parts,
S for 1 part and 0 for any other shape, with the arithmetic performed in
32-bit two's-complement, hence equal to the exact H*3600+M*60+S whenever
that value is within the i32 range (always for ordinary timecodes); all
the listed examples hold. -/
theorem c8_timecode (s3 s2 s1 s0 : String) (h3 m3 sec3 m2 sec2 p1 : List Char)
    (hs3 : splitOnColon s3.toList = [h3, m3, sec3])
    (hs2 : splitOnColon s2.toList = [m2, sec2])
    (hs1 : splitOnColon s1.toList = [p1])
    (hs0 : 4 ≤ (splitOnColon s0.toList).length) :
    parse_time_to_time s3 =
      wrap32 ((parseI32 h3).getD 0 * 3600 + (parseI32 m3).getD 0 * 60 +
        (parseI32 sec3).getD 0) ∧
    (-(2 ^ 31) ≤ (parseI32 h3).getD 0 * 3600 + (parseI32 m3).getD 0 * 60 +
        (parseI32 sec3).getD 0 →
      (parseI32 h3).getD 0 * 3600 + (parseI32 m3).getD 0 * 60 +
        (parseI32 sec3).getD 0 < 2 ^ 31 →
      parse_time_to_time s3 =
        (parseI32 h3).getD 0 * 3600 + (parseI32 m3).getD 0 * 60 +
          (parseI32 sec3).getD 0) ∧
    parse_time_to_time s2 =
      wrap32 ((parseI32 m2).getD 0 * 60 + (parseI32 sec2).getD 0) ∧
    parse_time_to_time s1 = (parseI32 p1).getD 0 ∧
    parse_time_to_time s0 = 0 ∧
    parse_time_to_time "01:02:03" = 3723 ∧
    parse_time_to_time "02:05" = 125 ∧
    parse_time_to_time "45" = 45 ∧
    parse_time_to_time "" = 0 ∧
    parse_time_to_time "x:y" = 0 := by
  have main3 : parse_time_to_time s3 =
      wrap32 ((parseI32 h3).getD 0 * 3600 + (parseI32 m3).getD 0 * 60 +
        (parseI32 sec3).getD 0) := by
    simp only [parse_time_to_time, hs3]
    exact wrap32_three_collapse ((parseI32 h3).getD 0 * 3600)
      ((parseI32 m3).getD 0 * 60) ((parseI32 sec3).getD 0)
  refine ⟨main3, ?_, ?_, ?_, ?_, by decide, by decide, by decide, by decide, by decide⟩
  · intro hlo hhi
    rw [main3, wrap32_eq_self _ hlo hhi]
  · simp only [parse_time_to_time, hs2]
    exact wrap32_add_left ((parseI32 m2).getD 0 * 60) ((parseI32 sec2).getD 0)
  · simp only [parse_time_to_time, hs1]
  · rcases hs : splitOnColon s0.toList with _ | ⟨a, _ | ⟨b, _ | ⟨c, _ | ⟨d, r⟩⟩⟩⟩ <;>
      rw [hs] at hs0
    · simp at hs0
    · simp at hs0
    · simp at hs0
    · simp at hs0
    · simp only [parse_time_to_time, hs]

/-- C8, witness for the amended theorem: concrete inputs of each shape,
with the in-range exactness hypotheses discharged on "01:02:03". -/
theorem c8_witness :
    parse_time_to_time "01:02:03" =
      (parseI32 ['0', '1']).getD 0 * 3600 + (parseI32 ['0', '2']).getD 0 * 60 +
        (parseI32 ['0', '3']).getD 0 :=
  (c8_timecode "01:02:03" "02:05" "45" "a:b:c:d"
      ['0', '1'] ['0', '2'] ['0', '3'] ['0', '2'] ['0', '5'] ['4', '5']
      (by decide) (by decide) (by decide) (by decide)).2.1
    (by decide) (by decide)

/-- Decoding a JSON value as a string succeeds only on a string value. -/
theorem jAsStr_inv (v : Json) (s : String) (h : jAsStr v = some s) : v = Json.str s := by
  cases v <;> simp [jAsStr] at h
  rw [h]

/-- C9, counterexample: an inbound frame whose type discriminator is
"transcription" - not "transcription.broadcast" - still enqueues exactly
one event, because the read loop's catch-all arm retries the whole frame
as a direct TranscriptionEvent parse and pushes the result on success;
this refutes the claim that no frame of any other kind enqueues an
event. -/
theorem c9_counterexample :
    typeDiscriminator (Json.obj [("type", Json.str "transcription"),
        ("timestamp", Json.num 5), ("speaker", Json.str "A"),
        ("text", Json.str "hi")]) = some "transcription" ∧
    (some "transcription" ≠ some "transcription.broadcast") ∧
    processTextFrame (Json.obj [("type", Json.str "transcription"),
        ("timestamp", Json.num 5), ("speaker", Json.str "A"),
        ("text", Json.str "hi")]) =
      ([TranscriptionEvent.mk "transcription" 5 "A" "hi" none none none], false) := by
  decide

/-- C9, amended: a transcription.broadcast frame with a decodable data
payload enqueues exactly one event whose speaker, text and confidence
match the payload fields; a transcription.broadcast frame whose data
payload fails to decode enqueues zero events and logs a decode error;
the four control frame kinds enqueue nothing; the read loop always
continues to the next frame; but a frame of any other kind is retried as
a direct whole-frame TranscriptionEvent parse and is also enqueued when
that parse succeeds. -/
theorem c9_bridge :
    (∀ (j d : Json) (e : TranscriptionEvent),
      typeDiscriminator j = some "transcription.broadcast" →
      jGet j "data" = some d → decodeEvent d = some e →
      processTextFrame j = ([e], false)) ∧
    (∀ j d : Json,
      typeDiscriminator j = some "transcription.broadcast" →
      jGet j "data" = some d → decodeEvent d = none →
      processTextFrame j = ([], true)) ∧
    (∀ j : Json,
      (typeDiscriminator j = some "auth.success" ∨
        typeDiscriminator j = some "auth.failed" ∨
        typeDiscriminator j = some "connection.established" ∨
        typeDiscriminator j = some "connection.error") →
      processTextFrame j = ([], false)) ∧
    (∀ (fields : List (String × Json)) (e : TranscriptionEvent),
      decodeEvent (Json.obj fields) = some e →
      jField fields "speaker" = some (Json.str e.speaker) ∧
      jField fields "text" = some (Json.str e.text) ∧
      jOptField fields "confidence" jAsNum = some e.confidence) ∧
    (∀ (j : Json) (rest : List Json),
      readLoop (j :: rest) =
        ((processTextFrame j).1 ++ (readLoop rest).1,
          (if (processTextFrame j).2 then 1 else 0) + (readLoop rest).2)) ∧
    (∀ (j : Json) (e : TranscriptionEvent),
      typeDiscriminator j ≠ some "auth.success" →
      typeDiscriminator j ≠ some "auth.failed" →
      typeDiscriminator j ≠ some "connection.established" →
      typeDiscriminator j ≠ some "connection.error" →
      typeDiscriminator j ≠ some "transcription.broadcast" →
      decodeEvent j = some e →
      processTextFrame j = ([e], false)) := by
  refine ⟨?_, ?_, ?_, ?_, ?_, ?_⟩
  · intro j d e h1 h2 h3
    simp [processTextFrame, h1, h2, h3]
  · intro j d h1 h2 h3
    simp [processTextFrame, h1, h2, h3]
  · intro j h
    rcases h with h | h | h | h <;> simp [processTextFrame, h]
  · intro fields e hdec
    simp only [decodeEvent, Option.bind_eq_some, Option.map_eq_some'] at hdec
    obtain ⟨tv, htv, ty, hty, tsv, htsv, ts, hts, spv, hspv, sp, hsp, txv, htxv, tx, htx,
      conf, hconf, fin, hfin, tid, htid, heq⟩ := hdec
    subst heq
    refine ⟨?_, ?_, hconf⟩
    · rw [hspv, jAsStr_inv spv sp hsp]
    · rw [htxv, jAsStr_inv txv tx htx]
  · intro j rest
    rfl
  · intro j e h1 h2 h3 h4 h5 hdec
    simp [processTextFrame, h1, h2, h3, h4, h5, hdec]

/-- C9, witness for the amended theorem at concrete frames. -/
theorem c9_witness :
    processTextFrame (Json.obj [("type", Json.str "transcription.broadcast"),
        ("data", Json.obj [("type", Json.str "transcription"), ("timestamp", Json.num 7),
          ("speaker", Json.str "B"), ("text", Json.str "ok"),
          ("confidence", Json.num 1)])]) =
      ([TranscriptionEvent.mk "transcription" 7 "B" "ok" (some 1) none none], false) :=
  c9_bridge.1
    (Json.obj [("type", Json.str "transcription.broadcast"),
      ("data", Json.obj [("type", Json.str "transcription"), ("timestamp", Json.num 7),
        ("speaker", Json.str "B"), ("text", Json.str "ok"),
        ("confidence", Json.num 1)])])
    (Json.obj [("type", Json.str "transcription"), ("timestamp", Json.num 7),
      ("speaker", Json.str "B"), ("text", Json.str "ok"), ("confidence", Json.num 1)])
    (TranscriptionEvent.mk "transcription" 7 "B" "ok" (some 1) none none)
    (by decide) rfl (by decide)

end Restream
